import Mathlib

/-!
Verification of the Samaa news-bot repository (news_scraper.py,
news_summarizer.py, bot.py) against its natural-language specification.

The Python code is shallowly embedded: every network call, the Twitter
generator, RSS fetches and page fetches are supplied through an explicit
oracle; `random.choice` is supplied an index reduced modulo the list length;
`datetime.now()` is a fixed integer parameter (time is held constant during a
call, so the ten-second timeout guard in `_get_tweets_from_handle`, which
compares the constant clock with itself, never fires).  Python `datetime`
values are `PyDatetime`, either naive or timezone-aware (aware values hold the
UTC instant); comparing a naive with an aware value raises `TypeError`,
modelled in the `Except` monad.  Strings are handled as their character lists;
regular expressions from the source are compiled by hand into character
scanners; ASCII case folding stands in for `str.lower` (all inputs exercised
here are within ASCII for the cased positions).
-/

namespace Samaa

/-- Python whitespace for `str.strip`, `str.split()` and the regex class \s
(ASCII range). -/
def is_py_space (c : Char) : Bool :=
  c = ' ' ∨ c = '\t' ∨ c = '\n' ∨ c = '\r' ∨ c = '\x0b' ∨ c = '\x0c'

/-- Word characters for the regex class \w (ASCII range). -/
def is_word_char (c : Char) : Bool :=
  c.isAlphanum ∨ c = '_'

/-- ASCII lower-casing of one character, for `str.lower`. -/
def py_char_lower (c : Char) : Char :=
  if 'A' ≤ c ∧ c ≤ 'Z' then Char.ofNat (c.toNat + 32) else c

/-- Character-list lower-casing, for `str.lower`. -/
def py_lower_chars (l : List Char) : List Char :=
  l.map py_char_lower

/-- Strip Python whitespace from both ends, `str.strip()`. -/
def py_strip_chars (l : List Char) : List Char :=
  ((l.dropWhile is_py_space).reverse.dropWhile is_py_space).reverse

/-- String-level `str.strip()`. -/
def py_strip (s : String) : String :=
  String.mk (py_strip_chars s.data)

/-- String-level `str.lower()`. -/
def py_lower (s : String) : String :=
  String.mk (py_lower_chars s.data)

/-- Does `p` start the list `l`, for `str.startswith` and substring search. -/
def py_starts : List Char → List Char → Bool
  | [], _ => true
  | _ :: _, [] => false
  | a :: ps, b :: ls => a = b && py_starts ps ls

/-- Substring occurrence over character lists, for the Python `in` operator
on strings. -/
def py_contains_chars (n : List Char) : List Char → Bool
  | [] => n.isEmpty
  | c :: t => py_starts n (c :: t) || py_contains_chars n t

/-- Substring occurrence, `needle in haystack`. -/
def py_contains (needle haystack : String) : Bool :=
  py_contains_chars needle.data haystack.data

/-- Split a character list on a single separator character, keeping empty
fields, as Python `str.split(sep)` does for a one-character separator;
`''.split('.')` gives `['']`, matching the `[[]]` base case. -/
def split_on_char (sep : Char) : List Char → List (List Char)
  | [] => [[]]
  | c :: cs =>
    match split_on_char sep cs with
    | [] => if c = sep then [[], []] else [[c]]
    | h :: t => if c = sep then [] :: h :: t else (c :: h) :: t

/-- Maximal runs of characters satisfying `keep`, fuel-driven so that the
kernel can evaluate it; models both `str.split()` (keep = not whitespace) and
`re.findall(r'\b\w+\b', s)` (keep = word character), since \b\w+\b matches
exactly the maximal word-character runs. -/
def tokens_f (keep : Char → Bool) : Nat → List Char → List (List Char)
  | 0, _ => []
  | _, [] => []
  | fuel + 1, c :: cs =>
    if keep c then
      (c :: cs.takeWhile keep) :: tokens_f keep fuel (cs.dropWhile keep)
    else
      tokens_f keep fuel cs

/-- Maximal runs of characters satisfying `keep`. -/
def tokens (keep : Char → Bool) (l : List Char) : List (List Char) :=
  tokens_f keep l.length l

/-- Number of fields of Python `str.split()` (whitespace runs dropped). -/
def py_split_count (s : String) : Nat :=
  (tokens (fun c => ¬ is_py_space c) s.data).length

/-- One alternative of the noise regex: a literal head followed by a
non-empty greedy run of `p`-characters; returns the rest after the match. -/
def match_head_run (pre : List Char) (p : Char → Bool) (l : List Char) :
    Option (List Char) :=
  if py_starts pre l then
    let rest := l.drop pre.length
    if rest.takeWhile p = [] then none else some (rest.dropWhile p)
  else none

/-- One step of `re.sub(r'http\S+|www\S+|@\w+|#\w+', '', s)`: at the current
position try the four alternatives in order; `some rest` consumes a match. -/
def match_noise (l : List Char) : Option (List Char) :=
  match match_head_run ['h', 't', 't', 'p'] (fun c => ¬ is_py_space c) l with
  | some r => some r
  | none =>
    match match_head_run ['w', 'w', 'w'] (fun c => ¬ is_py_space c) l with
    | some r => some r
    | none =>
      match match_head_run ['@'] is_word_char l with
      | some r => some r
      | none => match_head_run ['#'] is_word_char l

/-- Fuel-driven scanner for `re.sub(r'http\S+|www\S+|@\w+|#\w+', '', s)`:
left-to-right, deleting each leftmost match. -/
def clean_noise_f : Nat → List Char → List Char
  | 0, _ => []
  | _, [] => []
  | fuel + 1, c :: cs =>
    match match_noise (c :: cs) with
    | some rest => clean_noise_f fuel rest
    | none => c :: clean_noise_f fuel cs

/-- Scanner for `re.sub(r'http\S+|www\S+|@\w+|#\w+', '', s)`. -/
def clean_noise (l : List Char) : List Char :=
  clean_noise_f l.length l

/-- Fuel-driven scanner for `re.sub(r'\s+', ' ', s)`: each maximal whitespace
run becomes a single space. -/
def collapse_ws_f : Nat → List Char → List Char
  | 0, _ => []
  | _, [] => []
  | fuel + 1, c :: cs =>
    if is_py_space c then ' ' :: collapse_ws_f fuel (cs.dropWhile is_py_space)
    else c :: collapse_ws_f fuel cs

/-- Scanner for `re.sub(r'\s+', ' ', s)`. -/
def collapse_ws (l : List Char) : List Char :=
  collapse_ws_f l.length l

/-- Join character lists with a separator, `sep.join(parts)`. -/
def join_chars (sep : List Char) : List (List Char) → List Char
  | [] => []
  | [x] => x
  | x :: y :: ys => x ++ sep ++ join_chars sep (y :: ys)

/-- Join strings with a separator, `sep.join(parts)`. -/
def join_str (sep : String) : List String → String
  | [] => ""
  | [x] => x
  | x :: y :: ys => x ++ sep ++ join_str sep (y :: ys)

/-- Python `datetime` values: naive or timezone-aware, each carrying seconds
(aware values normalised to the UTC instant, which is what Python compares). -/
inductive PyDatetime where
  | naive (secs : Int)
  | aware (secs : Int)
deriving DecidableEq, Repr

/-- Are two datetimes both naive or both aware, hence comparable in Python. -/
def PyDatetime.same_kind : PyDatetime → PyDatetime → Bool
  | .naive _, .naive _ => true
  | .aware _, .aware _ => true
  | _, _ => false

/-- The seconds payload, used for ordering once kinds are known to agree. -/
def PyDatetime.secs : PyDatetime → Int
  | .naive s => s
  | .aware s => s

/-- Message of the exception CPython raises on a naive/aware comparison. -/
def tz_type_error : String :=
  "TypeError: can\x27t compare offset-naive and offset-aware datetimes"

/-- Python `a < b` on datetimes: compares instants when both are naive or
both aware, raises `TypeError` otherwise. -/
def PyDatetime.lt (a b : PyDatetime) : Except String Bool :=
  match a, b with
  | .naive x, .naive y => .ok (decide (x < y))
  | .aware x, .aware y => .ok (decide (x < y))
  | _, _ => .error tz_type_error

/-- Gregorian leap year. -/
def is_leap (y : Nat) : Bool :=
  (y % 4 = 0 ∧ y % 100 ≠ 0) ∨ y % 400 = 0

/-- Days in a month of the proleptic Gregorian calendar. -/
def days_in_month (y m : Nat) : Nat :=
  if m = 2 then (if is_leap y then 29 else 28)
  else if m = 4 ∨ m = 6 ∨ m = 9 ∨ m = 11 then 30
  else 31

/-- Days in the months of year `y` strictly before month `m`. -/
def days_before_month (y m : Nat) : Nat :=
  (List.range (m - 1)).foldl (fun a i => a + days_in_month y (i + 1)) 0

/-- Leap years in `[1, y]`. -/
def leap_count (y : Nat) : Nat :=
  y / 4 - y / 100 + y / 400

/-- Day index of y-m-d counting 0001-01-01 as day zero (Python ordinal minus
one); `datetime` requires `MINYEAR = 1`, so `y ≥ 1` here. -/
def days_from_year1 (y m d : Nat) : Nat :=
  365 * (y - 1) + leap_count (y - 1) + days_before_month y m + (d - 1)

/-- Seconds since the Unix epoch of a wall-clock reading; 719162 is the day
index of 1970-01-01. -/
def epoch_secs (y m d hh mi ss : Nat) : Int :=
  ((days_from_year1 y m d : Int) - 719162) * 86400
    + ((hh * 3600 + mi * 60 + ss : Nat) : Int)

/-- One decimal digit. -/
def digit_val (c : Char) : Option Nat :=
  if '0' ≤ c ∧ c ≤ '9' then some (c.toNat - 48) else none

/-- Two decimal digits, as `%d`, `%H`, `%M`, `%S` render in RSS dates. -/
def take2 : List Char → Option (Nat × List Char)
  | a :: b :: rest =>
    match digit_val a, digit_val b with
    | some x, some y => some (10 * x + y, rest)
    | _, _ => none
  | _ => none

/-- Four decimal digits, as `%Y` renders. -/
def take4 : List Char → Option (Nat × List Char)
  | a :: b :: c :: d :: rest =>
    match digit_val a, digit_val b, digit_val c, digit_val d with
    | some w, some x, some y, some z =>
      some (1000 * w + 100 * x + 10 * y + z, rest)
    | _, _, _, _ => none
  | _ => none

/-- A required literal character. -/
def lit (c : Char) : List Char → Option (List Char)
  | x :: rest => if x = c then some rest else none
  | [] => none

/-- Three characters taken as a string, for `%a` and `%b` names. -/
def take3str : List Char → Option (String × List Char)
  | a :: b :: c :: rest => some (String.mk [a, b, c], rest)
  | _ => none

/-- Abbreviated weekday names accepted by `%a` (canonical casing; strptime
parses the name without checking it against the date). -/
def weekday_names : List String :=
  ["Mon", "Tue", "Wed", "Thu", "Fri", "Sat", "Sun"]

/-- Abbreviated month names accepted by `%b` (canonical casing). -/
def month_number (s : String) : Option Nat :=
  if s = "Jan" then some 1 else if s = "Feb" then some 2
  else if s = "Mar" then some 3 else if s = "Apr" then some 4
  else if s = "May" then some 5 else if s = "Jun" then some 6
  else if s = "Jul" then some 7 else if s = "Aug" then some 8
  else if s = "Sep" then some 9 else if s = "Oct" then some 10
  else if s = "Nov" then some 11 else if s = "Dec" then some 12
  else none

/-- Field validation shared by every format: what `datetime.__new__` accepts. -/
def fields_ok (y m d hh mi ss : Nat) : Bool :=
  1 ≤ y ∧ 1 ≤ m ∧ m ≤ 12 ∧ 1 ≤ d ∧ d ≤ days_in_month y m
    ∧ hh ≤ 23 ∧ mi ≤ 59 ∧ ss ≤ 59

/-- Parse `%a, %d %b %Y %H:%M:%S`, the shared base of the two RFC-style
formats in `_parse_rss_date`, on its canonical rendering (two-digit numeric
fields, standard English abbreviations); yields the naive epoch seconds and
the unconsumed tail. -/
def parse_rfc_base (l : List Char) : Option (Int × List Char) := do
  let (w, r1) ← take3str l
  if weekday_names.contains w then do
    let r2 ← lit ',' r1
    let r3 ← lit ' ' r2
    let (d, r4) ← take2 r3
    let r5 ← lit ' ' r4
    let (ms, r6) ← take3str r5
    let m ← month_number ms
    let r7 ← lit ' ' r6
    let (y, r8) ← take4 r7
    let r9 ← lit ' ' r8
    let (hh, r10) ← take2 r9
    let r11 ← lit ':' r10
    let (mi, r12) ← take2 r11
    let r13 ← lit ':' r12
    let (ss, r14) ← take2 r13
    if fields_ok y m d hh mi ss then some (epoch_secs y m d hh mi ss, r14)
    else none
  else none

/-- Parse a `%z` offset written `±HHMM` consuming the whole tail; yields the
offset in seconds. -/
def parse_tz : List Char → Option Int
  | s :: rest =>
    if s = '+' ∨ s = '-' then do
      let (oh, r1) ← take2 rest
      let (om, r2) ← take2 r1
      if r2 = [] ∧ oh ≤ 23 ∧ om ≤ 59 then
        some ((if s = '-' then -1 else 1) * ((oh * 3600 + om * 60 : Nat) : Int))
      else none
    else none
  | [] => none

/-- Format `'%a, %d %b %Y %H:%M:%S %z'`: an aware datetime. -/
def parse_fmt_rfc_tz (l : List Char) : Option PyDatetime := do
  let (base, rest) ← parse_rfc_base l
  let r ← lit ' ' rest
  let off ← parse_tz r
  some (PyDatetime.aware (base - off))

/-- Format `'%a, %d %b %Y %H:%M:%S GMT'` (literal GMT): a naive datetime of
the stated wall-clock time. -/
def parse_fmt_rfc_gmt (l : List Char) : Option PyDatetime := do
  let (base, rest) ← parse_rfc_base l
  if rest = [' ', 'G', 'M', 'T'] then some (PyDatetime.naive base) else none

/-- Parse `%Y-%m-%d`, shared by the two ISO-style formats. -/
def parse_iso_date (l : List Char) : Option (Nat × Nat × Nat × List Char) := do
  let (y, r1) ← take4 l
  let r2 ← lit '-' r1
  let (m, r3) ← take2 r2
  let r4 ← lit '-' r3
  let (d, r5) ← take2 r4
  some (y, m, d, r5)

/-- Parse `%H:%M:%S`. -/
def parse_hms (l : List Char) : Option (Nat × Nat × Nat × List Char) := do
  let (hh, r1) ← take2 l
  let r2 ← lit ':' r1
  let (mi, r3) ← take2 r2
  let r4 ← lit ':' r3
  let (ss, r5) ← take2 r4
  some (hh, mi, ss, r5)

/-- Format `'%Y-%m-%dT%H:%M:%S%z'`: an aware datetime. -/
def parse_fmt_iso_tz (l : List Char) : Option PyDatetime := do
  let (y, m, d, r1) ← parse_iso_date l
  let r2 ← lit 'T' r1
  let (hh, mi, ss, r3) ← parse_hms r2
  let off ← parse_tz r3
  if fields_ok y m d hh mi ss then
    some (PyDatetime.aware (epoch_secs y m d hh mi ss - off))
  else none

/-- Format `'%Y-%m-%d %H:%M:%S'`: a naive datetime. -/
def parse_fmt_iso_naive (l : List Char) : Option PyDatetime := do
  let (y, m, d, r1) ← parse_iso_date l
  let r2 ← lit ' ' r1
  let (hh, mi, ss, r3) ← parse_hms r2
  if r3 = [] ∧ fields_ok y m d hh mi ss then
    some (PyDatetime.naive (epoch_secs y m d hh mi ss))
  else none

/-- NewsScraper._parse_rss_date: strip the string, try the four formats in
order, fall back to `datetime.now()` (naive).  Note that the `%z` formats
yield timezone-aware values while the GMT and plain formats and the fallback
yield naive ones. -/
def parse_rss_date (s : String) (now : Int) : PyDatetime :=
  let l := py_strip_chars s.data
  match parse_fmt_rfc_tz l with
  | some dt => dt
  | none =>
    match parse_fmt_rfc_gmt l with
    | some dt => dt
    | none =>
      match parse_fmt_iso_tz l with
      | some dt => dt
      | none =>
        match parse_fmt_iso_naive l with
        | some dt => dt
        | none => PyDatetime.naive now

/-- A tweet as produced by the snscrape generator. -/
structure Tweet where
  rawContent : String
  url : String
  date : PyDatetime
  likeCount : Nat
  retweetCount : Nat
deriving DecidableEq, Repr

/-- An RSS `<item>` as seen by BeautifulSoup: each field is the text of the
corresponding tag when the tag is present (a BeautifulSoup tag is truthy even
when its text is empty, so presence, not text, decides the `if title and
description` test). -/
structure RssItem where
  title : Option String
  description : Option String
  link : Option String
  pubDate : Option String
deriving DecidableEq, Repr

/-- The headline element found for an article in `scrape_current_affairs`
(result of the two `article.find` calls collapsed into one option): its tag
kind, its `href` when it is an anchor carrying one, and its text. -/
structure Headline where
  isA : Bool
  href : Option String
  text : String
deriving DecidableEq, Repr

/-- An article/div block of a current-affairs page: the headline element if
any, the `href` of `article.find('a')` when that anchor exists and has one,
and the text of the summary/content/description element if found. -/
structure PageArticle where
  headline : Option Headline
  linkHref : Option String
  contentText : Option String
deriving DecidableEq, Repr

/-- A news item dictionary as built by NewsScraper (all keys always present,
which is why the `.get` defaults downstream never fire). -/
structure NewsItem where
  title : String
  content : String
  source : String
  url : String
  timestamp : PyDatetime
  topic : String
deriving DecidableEq, Repr

/-- The network oracle: results of the snscrape generator per (handle,
attempt), of an RSS fetch-and-parse per feed URL, and of a page
fetch-and-parse per current-affairs URL.  An `error` value is the exception
the corresponding call raises (the generator is modelled as failing before
yielding any item). -/
structure ScrapeOracle where
  tweets : String → Nat → Except String (List Tweet)
  rss : String → Except String (List RssItem)
  pages : String → Except String (List PageArticle)

/-- The `self.news_handles` table; `.get(topic, ...['general'])` is the
key-equality chain below. -/
def general_handles : List String :=
  ["ANI", "ndtv", "timesofindia", "IndianExpress", "htTweets"]

/-- Handles for a topic, `self.news_handles.get(topic,
self.news_handles['general'])`. -/
def news_handles (topic : String) : List String :=
  if topic = "general" then general_handles
  else if topic = "politics" then ["ANI", "ndtv", "IndianExpress", "republic", "aajtak"]
  else if topic = "technology" then ["ETtech", "YourStory", "Inc42", "Medianama", "trak_in"]
  else if topic = "sports" then ["ESPNcricinfo", "cricbuzz", "KhelNow", "IndiaToday_SPO"]
  else if topic = "finance" then ["ETMarkets", "BloombergQuint", "moneycontrolcom", "livemint"]
  else if topic = "entertainment" then ["filmfare", "BollywoodHungama", "PinkvillaNews", "ETimes"]
  else if topic = "health" then ["MoHFW_INDIA", "WHO", "timesofindia", "ndtv"]
  else if topic = "international" then ["BBCWorld", "Reuters", "CNN", "AlJazeera"]
  else if topic = "business" then ["ETNow", "CNBCTV18News", "BloombergQuint", "BusinessLine"]
  else general_handles

/-- Feed URLs for a topic, `self.rss_feeds.get(topic, [])`. -/
def rss_feeds (topic : String) : List String :=
  if topic = "general" then
    ["https://feeds.feedburner.com/ndtvnews-top-stories",
     "https://timesofindia.indiatimes.com/rssfeedstopstories.cms",
     "https://www.hindustantimes.com/feeds/rss/news/latest.xml",
     "https://www.indiatoday.in/rss/home",
     "https://www.news18.com/rss/india.xml"]
  else if topic = "politics" then
    ["https://timesofindia.indiatimes.com/rssfeeds/1898055.cms",
     "https://www.thehindu.com/news/national/feeder/default.rss",
     "https://www.indiatoday.in/rss/1206514",
     "https://www.news18.com/rss/politics.xml"]
  else if topic = "technology" then
    ["https://economictimes.indiatimes.com/tech/rss/feedsdefault.cms",
     "https://www.theverge.com/rss/index.xml",
     "https://www.digit.in/feed",
     "https://gadgets.ndtv.com/rss/feeds"]
  else if topic = "sports" then
    ["https://timesofindia.indiatimes.com/rssfeeds/4719148.cms",
     "https://www.espn.in/espn/rss/cricket/news",
     "https://sports.ndtv.com/rss/all",
     "https://www.sportskeeda.com/feed"]
  else if topic = "finance" then
    ["https://economictimes.indiatimes.com/markets/rss/rssfeeds.cms",
     "https://www.livemint.com/rss/markets",
     "https://www.moneycontrol.com/rss/latestnews.xml",
     "https://www.business-standard.com/rss/markets-106.rss"]
  else if topic = "entertainment" then
    ["https://timesofindia.indiatimes.com/rssfeeds/1081479906.cms",
     "https://www.filmfare.com/feed",
     "https://www.bollywoodhungama.com/rss/news",
     "https://indianexpress.com/section/entertainment/feed/"]
  else if topic = "health" then
    ["https://timesofindia.indiatimes.com/rssfeeds/3908999.cms",
     "https://health.economictimes.indiatimes.com/rss",
     "https://www.healthline.com/nutrition/feed",
     "https://www.who.int/india/rss"]
  else if topic = "international" then
    ["https://timesofindia.indiatimes.com/rssfeeds/296589292.cms",
     "https://www.bbc.com/news/world/asia/india/rss.xml",
     "https://rss.cnn.com/rss/edition_world.rss",
     "https://feeds.feedburner.com/ndtvnews-world-news"]
  else if topic = "business" then
    ["https://economictimes.indiatimes.com/industry/rss/industry.cms",
     "https://www.livemint.com/rss/companies",
     "https://www.business-standard.com/rss/companies-101.rss",
     "https://www.moneycontrol.com/rss/business.xml"]
  else []

/-- NewsScraper._extract_keywords: lower-case the query, take the word runs
of `\b\w+\b`, drop stop words and words of length at most 2, keep the first
five. -/
def stop_words : List String :=
  ["what", "how", "when", "where", "why", "who", "is", "are", "was", "were",
   "the", "a", "an", "and", "or", "but", "in", "on", "at", "to", "for", "of",
   "with", "by", "about", "kya", "hai", "hua", "bhai", "news", "update"]

/-- NewsScraper._extract_keywords. -/
def extract_keywords (query : String) : List String :=
  (((tokens is_word_char (py_lower_chars query.data)).map String.mk).filter
    (fun w => ¬ stop_words.contains w ∧ w.length > 2)).take 5

/-- News indicators of NewsScraper._is_news_tweet. -/
def news_indicators : List String :=
  ["breaking", "update", "report", "announces", "says", "according to",
   "sources", "confirmed", "latest", "news", "today", "yesterday"]

/-- Promotional markers of NewsScraper._is_news_tweet. -/
def promo_markers : List String :=
  ["buy now", "subscribe", "follow us", "download app"]

/-- NewsScraper._is_news_tweet: at least one indicator substring, more than
eight whitespace-separated words, no promotional substring. -/
def is_news_tweet (content : String) : Bool :=
  let cl := py_lower content
  (news_indicators.any (fun i => py_contains i cl))
    && (py_split_count content > 8)
    && (¬ promo_markers.any (fun p => py_contains p cl))

/-- NewsScraper._extract_title: remove URLs/mentions/hashtags, collapse
whitespace and strip; return the first dot-separated sentence (stripped, with
a dot re-appended) when it is longer than 20 characters, otherwise the
cleaned text clipped at 100 characters with an ellipsis.  Python
`str.split('.')` never yields an empty list, so the `if sentences` guard is
always taken; the empty match arm mirrors the dead fallthrough. -/
def extract_title (content : String) : String :=
  let clean := py_strip_chars (collapse_ws (clean_noise content.data))
  let tail100 : String :=
    if clean.length > 100 then String.mk (clean.take 100 ++ ['.', '.', '.'])
    else String.mk clean
  match split_on_char '.' clean with
  | [] => tail100
  | s0 :: _ =>
    if s0.length > 20 then String.mk (py_strip_chars s0 ++ ['.'])
    else tail100

/-- Does the error text trigger the fast retry bump of
`_get_tweets_from_handle` (`"404" in str(e) or "blocked" in str(e).lower()`). -/
def err_404_blocked (e : String) : Bool :=
  py_contains "404" e || py_contains "blocked" (py_lower e)

/-- The enumerate loop body of `_get_tweets_from_handle` over one generator
run: stop at `limit` items, stop at the first tweet older than a day — a
comparison that raises `TypeError` when the tweet date is aware and the
`datetime.now()` bound is naive — and collect the rest.  Returns the tweets
appended during this run together with the exception, if one was raised
mid-run (the constant-clock timeout guard never fires). -/
def collect_tweets (limit : Nat) (now : Int) :
    List Tweet → Nat → List Tweet × Option String
  | [], _ => ([], none)
  | t :: rest, i =>
    if i ≥ limit then ([], none)
    else
      match PyDatetime.lt t.date (PyDatetime.naive (now - 86400)) with
      | .error e => ([], some e)
      | .ok true => ([], none)
      | .ok false =>
        let (ts, err) := collect_tweets limit now rest (i + 1)
        (t :: ts, err)

/-- The retry loop of NewsScraper._get_tweets_from_handle: up to five rounds
(an error whose text contains 404/blocked advances the retry counter twice);
the `tweets` list persists across rounds, the round succeeds when it appended
at least one tweet, and exhaustion returns the empty list.  The fuel equals
the round budget: the counter grows by at least one per round, so fuel five
is exact. -/
def tweets_loop (oc : ScrapeOracle) (handle : String) (limit : Nat)
    (now : Int) : Nat → Nat → Nat → List Tweet → List Tweet
  | 0, _, _, _ => []
  | fuel + 1, iter, retry, acc =>
    if retry ≥ 5 then []
    else
      match oc.tweets handle iter with
      | .error e =>
        tweets_loop oc handle limit now fuel (iter + 1)
          (retry + (if err_404_blocked e then 2 else 1)) acc
      | .ok items =>
        let (fresh, err) := collect_tweets limit now items 0
        let acc2 := acc ++ fresh
        match err with
        | some e =>
          tweets_loop oc handle limit now fuel (iter + 1)
            (retry + (if err_404_blocked e then 2 else 1)) acc2
        | none =>
          if fresh.length > 0 then acc2
          else tweets_loop oc handle limit now fuel (iter + 1) (retry + 1) acc2

/-- NewsScraper._get_tweets_from_handle. -/
def get_tweets_from_handle (oc : ScrapeOracle) (handle : String)
    (limit : Nat) (now : Int) : List Tweet :=
  tweets_loop oc handle limit now 5 0 0 []

/-- NewsScraper._scrape_rss_feed: for each feed of the topic, fetch and parse
(a raised exception skips the feed), keep the first five items, and for items
whose title and description tags are both present build a news item from the
stripped texts; `pubDate` text goes through `_parse_rss_date`, a missing
`pubDate` tag yields naive `datetime.now()`. -/
def scrape_rss_feed (oc : ScrapeOracle) (topic : String) (now : Int) :
    List NewsItem :=
  (rss_feeds topic).foldl
    (fun acc url =>
      match oc.rss url with
      | .error _ => acc
      | .ok items =>
        acc ++ (items.take 5).filterMap (fun it =>
          match it.title, it.description with
          | some t, some d =>
            some ⟨py_strip t, py_strip d, "RSS Feed",
                  (match it.link with
                   | some u => py_strip u
                   | none => ""),
                  (match it.pubDate with
                   | some p => parse_rss_date p now
                   | none => PyDatetime.naive now),
                  topic⟩
          | _, _ => none))
    []

/-- Tweets of one handle turned into news items (`_scrape_topic_news` inner
loop): keep tweets recognised as news, title them with `_extract_title`. -/
def tweets_to_items (handle topic : String) (ts : List Tweet) :
    List NewsItem :=
  ts.filterMap (fun t =>
    if is_news_tweet t.rawContent then
      some ⟨extract_title t.rawContent, t.rawContent, "@" ++ handle,
            t.url, t.date, topic⟩
    else none)

/-- One handle step of `_scrape_topic_news`: skipped once the error counter
reaches five (the `break`: the counter never decreases, so skipping the rest
is the same as breaking); an empty tweet list counts an error, a non-empty
one marks Twitter success and contributes its news tweets.
`_get_tweets_from_handle` catches internally and returns a list, so the
per-handle `except` arm is unreachable in this embedding. -/
def handle_step (oc : ScrapeOracle) (topic : String) (limit : Nat)
    (now : Int) (st : List NewsItem × Bool × Nat) (handle : String) :
    List NewsItem × Bool × Nat :=
  if st.2.2 ≥ 5 then st
  else
    let tws := get_tweets_from_handle oc handle (limit / 3) now
    if tws.isEmpty then (st.1, st.2.1, st.2.2 + 1)
    else (st.1 ++ tweets_to_items handle topic tws, true, st.2.2)

/-- The three hard-coded pages of NewsScraper.scrape_current_affairs. -/
def current_affairs_sources : List String :=
  ["https://www.indiatoday.in/india",
   "https://timesofindia.indiatimes.com/india",
   "https://www.hindustantimes.com/india-news"]

/-- `source_url.split('/')[2]`, the host part of the page URL. -/
def host_of (u : String) : String :=
  String.mk ((split_on_char '/' u.data).getD 2 [])

/-- Relative-URL handling of `scrape_current_affairs`: absolute links kept,
leading-slash links prefixed with `'/'.join(source_url.split('/')[:3])`,
anything else appended to the source URL. -/
def resolve_link (href src : String) : String :=
  if py_starts ['h', 't', 't', 'p'] href.data then href
  else if py_starts ['/'] href.data then
    String.mk (join_chars ['/'] ((split_on_char '/' src.data).take 3)) ++ href
  else src ++ "/" ++ href

/-- The per-article loop of `scrape_current_affairs` over one page, with the
accumulated per-page `headlines` and the cross-page `news_items` threaded
through.  Faithfully to the source indentation: an article without a headline
element does nothing; a headline that is itself an anchor with an `href` has
its link computed but nothing appended; appends happen only in the
`article.find('a')` branch, guarded by a non-empty title longer than ten
characters that is new to this page's `headlines`; `news_items.extend
(headlines)` then runs once per headline-bearing article, re-appending the
whole per-page list each time — except that reaching `limit` inside
`headlines` breaks out before that extend. -/
def process_articles (src : String) (now : Int) (limit : Nat) :
    List PageArticle → List NewsItem → List NewsItem → List NewsItem
  | [], _, ni => ni
  | a :: rest, hl, ni =>
    match a.headline with
    | none => process_articles src now limit rest hl ni
    | some h =>
      let title := py_strip h.text
      if h.isA ∧ h.href.isSome then
        let ni2 := ni ++ hl
        if ni2.length ≥ limit then ni2
        else process_articles src now limit rest hl ni2
      else
        match a.linkHref with
        | some href =>
          let link := resolve_link href src
          let content :=
            match a.contentText with
            | some c => py_strip c
            | none => ""
          if title ≠ "" ∧ title.length > 10
              ∧ ¬ hl.any (fun x => x.title = title) then
            let item : NewsItem :=
              ⟨title, (if content ≠ "" then content else title),
               host_of src, link, PyDatetime.naive now, ""⟩
            let hl2 := hl ++ [item]
            if hl2.length ≥ limit then ni
            else
              let ni2 := ni ++ hl2
              if ni2.length ≥ limit then ni2
              else process_articles src now limit rest hl2 ni2
          else
            let ni2 := ni ++ hl
            if ni2.length ≥ limit then ni2
            else process_articles src now limit rest hl ni2
        | none =>
          let ni2 := ni ++ hl
          if ni2.length ≥ limit then ni2
          else process_articles src now limit rest hl ni2

/-- NewsScraper.scrape_current_affairs: iterate the three sources (a raised
fetch skips its source; the per-article break does not break the source
loop), then re-shape the first `limit` collected dictionaries with topic
`current_affairs`. -/
def scrape_current_affairs (oc : ScrapeOracle) (limit : Nat) (now : Int) :
    List NewsItem :=
  let ni := current_affairs_sources.foldl
    (fun acc src =>
      match oc.pages src with
      | .error _ => acc
      | .ok arts => process_articles src now limit arts [] acc)
    []
  (ni.take limit).map (fun it =>
    ⟨it.title, it.content, it.source, it.url, it.timestamp,
     "current_affairs"⟩)

/-- NewsScraper._scrape_topic_news: `current_affairs` is special-cased; for
other topics the first three handles are tried (with the five-error break),
and when Twitter yielded no success or fewer than `limit` items the RSS
fallback items are appended. -/
def scrape_topic_news (oc : ScrapeOracle) (topic : String) (limit : Nat)
    (now : Int) : List NewsItem :=
  if topic = "current_affairs" then scrape_current_affairs oc limit now
  else
    let st := ((news_handles topic).take 3).foldl
      (handle_step oc topic limit now) ([], false, 0)
    if ¬ st.2.1 ∨ st.1.length < limit then st.1 ++ scrape_rss_feed oc topic now
    else st.1

/-- All items gathered by the topic loop of `get_latest_news`; each topic is
fetched with budget `limit // len(topics)`, and the per-topic `except` arm is
unreachable because `_scrape_topic_news` catches internally. -/
def gather_news (oc : ScrapeOracle) (topics : List String) (limit : Nat)
    (now : Int) : List NewsItem :=
  topics.foldl
    (fun acc t => acc ++ scrape_topic_news oc t (limit / topics.length) now)
    []

/-- Are all timestamps of one kind (all naive or all aware). -/
def kinds_uniform : List PyDatetime → Bool
  | [] => true
  | k :: ks => ks.all (fun x => PyDatetime.same_kind k x)

/-- Stable descending insertion: the new (later) element goes after every
earlier element whose key is at least as large. -/
def insert_desc (l : List NewsItem) (x : NewsItem) : List NewsItem :=
  match l with
  | [] => [x]
  | y :: ys =>
    if y.timestamp.secs < x.timestamp.secs then x :: y :: ys
    else y :: insert_desc ys x

/-- Stable descending sort by timestamp. -/
def isort_desc (l : List NewsItem) : List NewsItem :=
  l.foldl insert_desc []

/-- Python `all_news.sort(key=lambda x: x.get('timestamp', datetime.now()),
reverse=True)`; every item built by the scraper carries a timestamp, so the
default never fires.  CPython's binary insertion sort compares each element
against at least one earlier element, so on a key list that mixes naive and
aware datetimes the first kind change always raises `TypeError`; a uniform
list sorts stably in descending order. -/
def py_sort_by_timestamp (l : List NewsItem) :
    Except String (List NewsItem) :=
  if kinds_uniform (l.map (fun x => x.timestamp)) then .ok (isort_desc l)
  else .error tz_type_error

/-- NewsScraper.get_latest_news: gather per topic, sort by timestamp
descending (outside every `try`, so a `TypeError` from mixed timestamp kinds
propagates to the caller), return the first `limit` items. -/
def get_latest_news (oc : ScrapeOracle) (topics : List String) (limit : Nat)
    (now : Int) : Except String (List NewsItem) :=
  match py_sort_by_timestamp (gather_news oc topics limit now) with
  | .error e => .error e
  | .ok l => .ok (l.take limit)

/-- The summarization pipeline as an oracle: text, max_length, min_length to
either a summary text or a raised exception.  `self.summarizer` is `Option
AiFn`: `none` is the case where no model could be loaded. -/
def AiFn : Type := String → Nat → Nat → Except String String

/-- `self.casual_intros` of NewsSummarizer, `.get(language, ...['english'])`
rendered as the key chain. -/
def casual_intros (lang : String) : List String :=
  if lang = "hindi" then
    ["अरे भाई, आज की खबर सुनो -",
     "भाई पता है आज क्या हुआ?",
     "सुनो भाई, ये हुआ है आज -",
     "अरे यार, आज की बड़ी खबर ये है -"]
  else if lang = "hinglish" then
    ["Arre bhai, aaj ki news sun -",
     "Bhai pata hai aaj kya hua?",
     "Sun yaar, aaj ka update -",
     "Arre, aaj ki badi news ye hai -"]
  else
    ["Hey bro, here\x27s what happened today -",
     "Bhai, you know what\x27s going on?",
     "Listen up, here\x27s the latest -",
     "Yo, big news today -"]

/-- `self.casual_connectors`, `.get(language, ...['english'])`. -/
def casual_connectors (lang : String) : List String :=
  if lang = "hindi" then ["और फिर", "इसके बाद", "अब बात ये है", "और सुनो"]
  else if lang = "hinglish" then ["Aur phir", "Aur sun", "Plus yaar", "Arre aur"]
  else ["And then", "Also", "Plus", "Oh and"]

/-- `random.choice` over a list, modelled by an externally supplied index
taken modulo the length: for the non-empty tables here the index ranges over
exactly the elements the Python call can pick. -/
def py_choice (l : List String) (i : Nat) : String :=
  l.getD (i % l.length) ""

/-- NewsSummarizer._get_casual_ending: `endings.get(language,
endings['english'])`, one random pick. -/
def get_casual_ending (lang : String) (i : Nat) : String :=
  py_choice
    (if lang = "hindi" then
      ["बस यही था आज का अपडेट! 👍",
       "और कुछ चाहिए तो बताना भाई! 😊",
       "हो गया आज का न्यूज़! 📰"]
    else if lang = "hinglish" then
      ["Bass yahi tha aaj ka update! 👍",
       "Aur kuch chahiye toh batana bhai! 😊",
       "Ho gaya aaj ka news! 📰"]
    else
      ["That\x27s your update for today! 👍",
       "Let me know if you need anything else, bro! 😊",
       "That\x27s all for now! 📰"]) i

/-- NewsSummarizer._get_no_news_message: `messages.get(language,
messages['english'])`. -/
def get_no_news_message (lang : String) : String :=
  if lang = "hindi" then
    "अरे भाई, अभी कोई खास खबर नहीं मिली। थोड़ी देर बाद ट्राई करना! 😅"
  else if lang = "hinglish" then
    "Arre bhai, abhi koi khaas news nahi mili. Thodi der baad try karna! 😅"
  else
    "Hey bro, couldn\x27t find any news right now. Try again later! 😅"

/-- An entry of the `topic_map` dict literal of _get_topic_info. -/
structure TopicEntry where
  emoji : String
  hindi : String
  english : String
  hinglish : String
deriving DecidableEq, Repr

/-- The `topic_map` literal, `.get(topic, topic_map['general'])`. -/
def topic_entry (topic : String) : TopicEntry :=
  if topic = "politics" then ⟨"🏛️", "राजनीति", "Politics", "Politics"⟩
  else if topic = "technology" then ⟨"💻", "तकनीक", "Technology", "Technology"⟩
  else if topic = "sports" then ⟨"⚽", "खेल", "Sports", "Sports"⟩
  else if topic = "finance" then ⟨"💰", "वित्त", "Finance", "Finance"⟩
  else if topic = "entertainment" then ⟨"🎬", "मनोरंजन", "Entertainment", "Entertainment"⟩
  else if topic = "health" then ⟨"🏥", "स्वास्थ्य", "Health", "Health"⟩
  else if topic = "international" then ⟨"🌍", "अंतर्राष्ट्रीय", "International", "International"⟩
  else if topic = "business" then ⟨"🏢", "व्यापार", "Business", "Business"⟩
  else ⟨"📰", "सामान्य", "General", "General"⟩

/-- `info.get(language, info['english'])` on a topic entry whose keys are
exactly emoji, hindi, english and hinglish: any other language string falls
back to the English name, but the key string `emoji` itself is found in the
dict and yields the emoji. -/
def entry_name (lang : String) (e : TopicEntry) : String :=
  if lang = "emoji" then e.emoji
  else if lang = "hindi" then e.hindi
  else if lang = "english" then e.english
  else if lang = "hinglish" then e.hinglish
  else e.english

/-- NewsSummarizer._get_topic_info: the (emoji, localized name) pair. -/
def get_topic_info (topic lang : String) : String × String :=
  (⟨(topic_entry topic).emoji, entry_name lang (topic_entry topic)⟩)

/-- NewsSummarizer._prepare_text_for_summarization: clean the content of the
first five items, keep the substantial ones (more than 50 characters), join
with spaces and clip at 1000 characters with an ellipsis. -/
def prepare_text (items : List NewsItem) : String :=
  let texts := (items.take 5).filterMap (fun it =>
    let c := py_strip_chars (collapse_ws (clean_noise it.content.data))
    if c.length > 50 then some c else none)
  let combined := join_chars [' '] texts
  if combined.length > 1000 then
    String.mk (combined.take 1000 ++ ['.', '.', '.'])
  else String.mk combined

/-- NewsSummarizer._generate_ai_summary: run the pipeline with max_length 130
and min_length 30; its own `except` turns any raised exception into the first
three dot-sentences of the input (the `language` argument is unused in the
source as well). -/
def generate_ai_summary (f : AiFn) (text : String) (lang : String) : String :=
  match f text 130 30 with
  | .ok s => s
  | .error _ =>
    String.mk
      (join_chars ['.', ' '] ((split_on_char '.' text.data).take 3) ++ ['.'])

/-- NewsSummarizer._generate_fallback_summary: for the first three items take
the title when it is non-empty, else the first dot-sentence of the content
(`str.split('.')` is never empty, so the `content[:100]` arm is dead), strip
it; then intro, blank line, and the summaries joined by
`"\n\n" + connector + " "`. -/
def generate_fallback_summary (items : List NewsItem) (lang : String)
    (ii ci : Nat) : String :=
  let summaries := (items.take 3).map (fun it =>
    let s :=
      if it.title ≠ "" then it.title
      else
        match split_on_char '.' it.content.data with
        | [] => String.mk (it.content.data.take 100)
        | s0 :: _ => String.mk s0
    py_strip s)
  let intro := py_choice (casual_intros lang) ii
  let conn := py_choice (casual_connectors lang) ci
  intro ++ "\n\n" ++ join_str ("\n\n" ++ conn ++ " ") summaries

/-- NewsSummarizer._make_casual: a random intro, replaced by the
language-specific query context when a query is present, then the summary,
then a casual ending, separated by blank lines. -/
def make_casual (summary lang query : String) (ii ei : Nat) : String :=
  let intro0 := py_choice (casual_intros lang) ii
  let intro :=
    if query = "" then intro0
    else if lang = "hindi" then
      "तुमने पूछा था \x27" ++ query ++ "\x27 के बारे में, तो सुनो -"
    else if lang = "hinglish" then
      "Tumne pucha tha \x27" ++ query ++ "\x27 ke baare mein, toh sun -"
    else
      "You asked about \x27" ++ query ++ "\x27, so here\x27s what I found -"
  intro ++ "\n\n" ++ summary ++ "\n\n" ++ get_casual_ending lang ei

/-- Insert an item into the topic groups: Python dict semantics, first
occurrence fixes the group position, later items append to their group. -/
def add_group (gs : List (String × List NewsItem)) (t : String)
    (it : NewsItem) : List (String × List NewsItem) :=
  match gs with
  | [] => [(t, [it])]
  | (k, l) :: rest =>
    if k = t then (k, l ++ [it]) :: rest
    else (k, l) :: add_group rest t it

/-- NewsSummarizer._group_by_topics (every scraped item carries its topic
key, so the `'general'` default of `.get` never fires). -/
def group_topics (items : List NewsItem) : List (String × List NewsItem) :=
  items.foldl (fun gs it => add_group gs it.topic it) []

/-- NewsSummarizer._summarize_topic_group: empty groups yield the empty
string; otherwise run the pipeline on the prepared group content when a model
is loaded and the content exceeds 100 characters — its bare `except` falls
back to the lead item's title (`items[0].get('title', ...)`: the key is
always present on scraped items) — else use that title directly; prefix with
the topic emoji and localized name. -/
def summarize_topic_group (ai : Option AiFn) (items : List NewsItem)
    (lang topic : String) : String :=
  match items with
  | [] => ""
  | it0 :: _ =>
    let info := get_topic_info topic lang
    let content := prepare_text items
    let s :=
      match ai with
      | some f =>
        if content.length > 100 then
          match f content 80 20 with
          | .ok r => r
          | .error _ => it0.title
        else it0.title
      | none => it0.title
    info.1 ++ " **" ++ info.2 ++ "**: " ++ s

/-- The `try` body of NewsSummarizer.summarize_news: prepare the combined
text, summarize with the model when loaded (that call catches its own
exceptions) or with the deterministic fallback, then wrap casually.  Every
potentially-raising step inside is already caught, so the body always
returns `ok`. -/
def summarize_try (ai : Option AiFn) (items : List NewsItem)
    (lang query : String) (fi fc mi ei : Nat) : Except String String :=
  let combined := prepare_text items
  let summary :=
    match ai with
    | some f => generate_ai_summary f combined lang
    | none => generate_fallback_summary items lang fi fc
  .ok (make_casual summary lang query mi ei)

/-- NewsSummarizer.summarize_news: the empty-input check precedes the `try`;
the `except` arm degrades to the deterministic fallback summary. -/
def summarize_news (ai : Option AiFn) (items : List NewsItem)
    (lang query : String) (fi fc mi ei : Nat) : Except String String :=
  if items = [] then .ok (get_no_news_message lang)
  else
    match summarize_try ai items lang query fi fc mi ei with
    | .ok s => .ok s
    | .error _ => .ok (generate_fallback_summary items lang fi fc)

/-- The `try` body of NewsSummarizer.create_news_digest: intro, one line per
non-empty topic group whose summary is non-empty, casual ending, joined by
blank lines.  As in the source, every raising step inside is caught deeper
down, so the body always returns `ok`. -/
def digest_try (ai : Option AiFn) (items : List NewsItem) (lang : String)
    (ii ei : Nat) : Except String String :=
  let groups := group_topics items
  let intro := py_choice (casual_intros lang) ii
  let middle := groups.filterMap (fun g =>
    if g.2 ≠ [] then
      let s := summarize_topic_group ai g.2 lang g.1
      if s ≠ "" then some s else none
    else none)
  .ok (join_str "\n\n" (intro :: (middle ++ [get_casual_ending lang ei])))

/-- NewsSummarizer.create_news_digest: the empty-input check precedes the
`try`; the `except` arm degrades to the deterministic fallback summary.  The
function takes no `max_length` parameter — the signature in the source is
`(self, news_data, language)` — so no output-length budget exists. -/
def create_news_digest (ai : Option AiFn) (items : List NewsItem)
    (lang : String) (ii ci ei : Nat) : Except String String :=
  if items = [] then .ok (get_no_news_message lang)
  else
    match digest_try ai items lang ii ei with
    | .ok s => .ok s
    | .error _ => .ok (generate_fallback_summary items lang ii ci)

/-- An oracle on which every network call raises. -/
def oc_allfail : ScrapeOracle :=
  ⟨fun _ _ => .error "boom", fun _ => .error "down", fun _ => .error "down"⟩

/-- An oracle where Twitter raises throughout and the first general feed
serves one item whose description tag holds only whitespace and which has no
pubDate tag. -/
def oc_c1 : ScrapeOracle :=
  ⟨fun _ _ => .error "boom",
   fun url =>
     if url = "https://feeds.feedburner.com/ndtvnews-top-stories" then
       .ok [⟨some "Headline here", some "   ", none, none⟩]
     else .error "down",
   fun _ => .error "down"⟩

/-- The item `get_latest_news` built from `oc_c1` at clock 77. -/
def c1_bad_item : NewsItem :=
  ⟨"Headline here", "", "RSS Feed", "", PyDatetime.naive 77, "general"⟩

/-- An oracle where Twitter raises throughout (failing source units), one
general feed serves an item dated with a `%z` offset and another general feed
serves an item without a pubDate tag. -/
def oc_c3 : ScrapeOracle :=
  ⟨fun _ _ => .error "boom",
   fun url =>
     if url = "https://feeds.feedburner.com/ndtvnews-top-stories" then
       .ok [⟨some "A headline", some "Body text", none,
             some "Mon, 06 Sep 2021 12:00:00 +0530"⟩]
     else if url = "https://timesofindia.indiatimes.com/rssfeedstopstories.cms" then
       .ok [⟨some "B headline", some "More text", none, none⟩]
     else .error "down",
   fun _ => .error "down"⟩

/-- An oracle where the first general feed serves two items, one dated with a
`%z` offset (parsed timezone-aware) and one dated with a literal GMT (parsed
naive). -/
def oc_c6 : ScrapeOracle :=
  ⟨fun _ _ => .error "boom",
   fun url =>
     if url = "https://feeds.feedburner.com/ndtvnews-top-stories" then
       .ok [⟨some "A headline", some "Body text", none,
             some "Mon, 06 Sep 2021 12:00:00 +0530"⟩,
            ⟨some "B headline", some "More text", none,
             some "Wed, 08 Sep 2021 10:00:00 GMT"⟩]
     else .error "down",
   fun _ => .error "down"⟩

/-- An oracle where the first current-affairs page holds two articles with
distinct titles, each a non-anchor headline next to a relative link. -/
def oc_c8 : ScrapeOracle :=
  ⟨fun _ _ => .error "boom", fun _ => .error "down",
   fun src =>
     if src = "https://www.indiatoday.in/india" then
       .ok [⟨some ⟨false, none, "Alpha headline one"⟩, some "/a1", none⟩,
            ⟨some ⟨false, none, "Beta headline two"⟩, some "/a2", none⟩]
     else .error "down"⟩

/-- A plain concrete news item for witnesses. -/
def sample_item : NewsItem :=
  ⟨"Big title", "Some content here", "s", "u", PyDatetime.naive 0, "sports"⟩

/-- A news item with a 200-character title: its digest line alone exceeds the
200-character budget the bot requests. -/
def c5_item : NewsItem :=
  ⟨String.mk (List.replicate 200 'a'), "x", "s", "u",
   PyDatetime.naive 0, "general"⟩

/-- The digest the bot's call site would need truncated to 200 characters. -/
def c5_digest : Except String String :=
  create_news_digest none [c5_item] "english" 0 0 0

/-- Membership through one stable descending insertion. -/
theorem mem_insert_desc (a : NewsItem) :
    ∀ (l : List NewsItem) (x : NewsItem),
      x ∈ insert_desc l a → x ∈ l ∨ x = a := by
  intro l
  induction l with
  | nil =>
    intro x hx
    simp only [insert_desc, List.mem_singleton] at hx
    exact Or.inr hx
  | cons y ys ih =>
    intro x hx
    simp only [insert_desc] at hx
    split at hx
    · rcases List.mem_cons.mp hx with h | h
      · exact Or.inr h
      · exact Or.inl h
    · rcases List.mem_cons.mp hx with h | h
      · exact Or.inl (h ▸ List.mem_cons_self y ys)
      · rcases ih x h with h2 | h2
        · exact Or.inl (List.mem_cons_of_mem y h2)
        · exact Or.inr h2

/-- Membership through the insertion-sort fold. -/
theorem mem_isort_fold :
    ∀ (l acc : List NewsItem) (x : NewsItem),
      x ∈ l.foldl insert_desc acc → x ∈ acc ∨ x ∈ l := by
  intro l
  induction l with
  | nil =>
    intro acc x hx
    exact Or.inl hx
  | cons y ys ih =>
    intro acc x hx
    rcases ih (insert_desc acc y) x hx with h | h
    · rcases mem_insert_desc y acc x h with h2 | h2
      · exact Or.inl h2
      · exact Or.inr (h2 ▸ List.mem_cons_self y ys)
    · exact Or.inr (List.mem_cons_of_mem y h)

/-- The sorted list holds only gathered items. -/
theorem mem_isort_desc (l : List NewsItem) (x : NewsItem)
    (h : x ∈ isort_desc l) : x ∈ l := by
  rcases mem_isort_fold l [] x h with h2 | h2
  · simp at h2
  · exact h2

/-- C1, counterexample: with the first general feed serving an item whose
description strips to the empty string and which has no pubDate tag,
`get_latest_news(['general'], 10)` returns one item whose content is empty
and whose timestamp is naive — the claim that every returned item has a
non-empty content and a timezone-aware timestamp fails. -/
theorem c1_counterexample :
    get_latest_news oc_c1 ["general"] 10 77 = .ok [c1_bad_item]
      ∧ c1_bad_item.content = ""
      ∧ c1_bad_item.timestamp = PyDatetime.naive 77 :=
  ⟨rfl, rfl, rfl⟩

/-- C1, amended: whenever `get_latest_news` returns, the returned list has at
most `limit` items; but a returned item's content may be the empty string
(RSS descriptions are checked for tag presence only) and its timestamp may be
naive rather than timezone-aware. -/
theorem c1_at_most_limit (oc : ScrapeOracle) (topics : List String)
    (limit : Nat) (now : Int) (l : List NewsItem)
    (h : get_latest_news oc topics limit now = .ok l) :
    l.length ≤ limit := by
  cases hs : py_sort_by_timestamp (gather_news oc topics limit now) with
  | error e => simp [get_latest_news, hs] at h
  | ok m =>
    simp [get_latest_news, hs] at h
    rw [← h]
    exact m.length_take_le limit

/-- C1, witness for the amended theorem at a concrete oracle. -/
theorem c1_at_most_limit_witness :
    get_latest_news oc_allfail ["general"] 10 0 = .ok []
      ∧ ([] : List NewsItem).length ≤ 10 :=
  ⟨rfl, c1_at_most_limit oc_allfail ["general"] 10 0 [] rfl⟩

/-- C3, counterexample: with every Twitter call failing (so source units do
fail and are skipped) and two general feeds serving one `%z`-dated and one
undated item, `get_latest_news` raises `TypeError` from the final sort
instead of returning the collected items. -/
theorem c3_counterexample :
    get_latest_news oc_c3 ["general"] 10 77 = .error tz_type_error :=
  rfl

/-- C3, amended: failures of single source units or topics are swallowed
inside the fetch loops, and whenever the collected items carry timestamps of
one kind (all naive or all aware) the call returns without raising, yielding
only collected items — but with mixed naive/aware timestamps the final sort
raises `TypeError`. -/
theorem c3_uniform_kinds_no_raise (oc : ScrapeOracle) (topics : List String)
    (limit : Nat) (now : Int)
    (h : kinds_uniform ((gather_news oc topics limit now).map
          (fun x => x.timestamp)) = true) :
    ∃ l, get_latest_news oc topics limit now = .ok l
      ∧ ∀ x ∈ l, x ∈ gather_news oc topics limit now := by
  refine ⟨(isort_desc (gather_news oc topics limit now)).take limit, ?_, ?_⟩
  · simp [get_latest_news, py_sort_by_timestamp, h]
  · intro x hx
    exact mem_isort_desc _ x (List.mem_of_mem_take hx)

/-- C3, witness for the amended theorem at a concrete oracle with failing
source units and uniformly naive timestamps. -/
theorem c3_uniform_kinds_witness :
    kinds_uniform ((gather_news oc_c1 ["general"] 10 77).map
        (fun x => x.timestamp)) = true
      ∧ ∃ l, get_latest_news oc_c1 ["general"] 10 77 = .ok l
          ∧ ∀ x ∈ l, x ∈ gather_news oc_c1 ["general"] 10 77 :=
  ⟨rfl, c3_uniform_kinds_no_raise oc_c1 ["general"] 10 77 rfl⟩

/-- C6: the code mixes naive and aware timestamps — `_parse_rss_date` yields
a timezone-aware value for the `%z` format and naive values for the GMT and
offset-free formats — and the final sort then raises `TypeError`, so
returned timestamps are not always mutually comparable. -/
theorem c6_mixed_timestamp_kinds :
    parse_rss_date "Mon, 06 Sep 2021 12:00:00 +0530" 77
        = PyDatetime.aware 1630909800
      ∧ parse_rss_date "Wed, 08 Sep 2021 10:00:00 GMT" 77
        = PyDatetime.naive 1631095200
      ∧ get_latest_news oc_c6 ["general"] 10 77 = .error tz_type_error :=
  ⟨rfl, rfl, rfl⟩

/-- C7, counterexample: `today` is returned by keyword extraction on the
scenario query, so it is not dropped as a stop word. -/
theorem c7_counterexample :
    "today" ∈ extract_keywords "what happened in cricket today" := by
  decide

/-- C7, amended: on `what happened in cricket today` the extraction drops
the stop words `what` and `in` and returns exactly `happened`, `cricket` and
`today` — `today` is not in the stop-word set and is kept. -/
theorem c7_keywords :
    extract_keywords "what happened in cricket today"
        = ["happened", "cricket", "today"]
      ∧ "what" ∉ extract_keywords "what happened in cricket today"
      ∧ "in" ∉ extract_keywords "what happened in cricket today" := by
  refine ⟨by decide, by decide, by decide⟩

/-- C8: with one page serving two articles with distinct titles, the
`news_items.extend(headlines)` placed inside the per-article loop re-appends
the first headline, and `scrape_current_affairs(3)` returns the first title
twice — the returned list is not deduplicated by exact title match (the
length bound itself holds). -/
theorem c8_duplicate_titles :
    (scrape_current_affairs oc_c8 3 5).map (fun it => it.title)
        = ["Alpha headline one", "Alpha headline one", "Beta headline two"]
      ∧ (scrape_current_affairs oc_c8 3 5).length ≤ 3 :=
  ⟨rfl, by decide⟩

/-- Length of the blank-line separator. -/
theorem nn_len : ("\n\n" : String).length = 2 := rfl

/-- A string of positive length is not the empty string. -/
theorem ne_empty_of_len (s : String) (h : 0 < s.length) : s ≠ "" := by
  intro he
  rw [he] at h
  simp at h

/-- The casual wrapper always contains its two blank-line separators, so it
is never empty. -/
theorem make_casual_ne_empty (summary lang query : String) (ii ei : Nat) :
    make_casual summary lang query ii ei ≠ "" := by
  apply ne_empty_of_len
  simp only [make_casual, String.length_append, nn_len]
  omega

/-- Joining at least two parts with the blank-line separator is never
empty. -/
theorem join_two_ne_empty (x : String) (rest : List String)
    (h : rest ≠ []) : join_str "\n\n" (x :: rest) ≠ "" := by
  apply ne_empty_of_len
  cases rest with
  | nil => exact absurd rfl h
  | cons a as =>
    simp only [join_str, String.length_append, nn_len]
    omega

/-- The try body of summarize_news always returns ok with non-empty text:
every raising step inside it is caught deeper down. -/
theorem summarize_try_ok (ai : Option AiFn) (items : List NewsItem)
    (lang query : String) (fi fc mi ei : Nat) :
    ∃ s, summarize_try ai items lang query fi fc mi ei = .ok s ∧ s ≠ "" :=
  ⟨_, rfl, make_casual_ne_empty _ lang query mi ei⟩

/-- The try body of create_news_digest always returns ok with non-empty
text: the parts list always holds the intro and the ending. -/
theorem digest_try_ok (ai : Option AiFn) (items : List NewsItem)
    (lang : String) (ii ei : Nat) :
    ∃ s, digest_try ai items lang ii ei = .ok s ∧ s ≠ "" := by
  refine ⟨_, rfl, ?_⟩
  apply join_two_ne_empty
  simp

/-- C2: on an empty item list both synthesis entry points return exactly the
fixed no-news message of the requested language, which is non-empty and not
an error, for each of the three supported languages. -/
theorem c2_no_news_exact :
    ∀ (ai : Option AiFn) (q : String) (fi fc mi ei ii ci ei2 : Nat),
      summarize_news ai [] "hindi" q fi fc mi ei
          = .ok "अरे भाई, अभी कोई खास खबर नहीं मिली। थोड़ी देर बाद ट्राई करना! 😅"
        ∧ create_news_digest ai [] "hindi" ii ci ei2
          = .ok "अरे भाई, अभी कोई खास खबर नहीं मिली। थोड़ी देर बाद ट्राई करना! 😅"
        ∧ summarize_news ai [] "english" q fi fc mi ei
          = .ok "Hey bro, couldn\x27t find any news right now. Try again later! 😅"
        ∧ create_news_digest ai [] "english" ii ci ei2
          = .ok "Hey bro, couldn\x27t find any news right now. Try again later! 😅"
        ∧ summarize_news ai [] "hinglish" q fi fc mi ei
          = .ok "Arre bhai, abhi koi khaas news nahi mili. Thodi der baad try karna! 😅"
        ∧ create_news_digest ai [] "hinglish" ii ci ei2
          = .ok "Arre bhai, abhi koi khaas news nahi mili. Thodi der baad try karna! 😅"
        ∧ ("अरे भाई, अभी कोई खास खबर नहीं मिली। थोड़ी देर बाद ट्राई करना! 😅" : String) ≠ ""
        ∧ ("Hey bro, couldn\x27t find any news right now. Try again later! 😅" : String) ≠ ""
        ∧ ("Arre bhai, abhi koi khaas news nahi mili. Thodi der baad try karna! 😅" : String) ≠ "" := by
  intro ai q fi fc mi ei ii ci ei2
  exact ⟨rfl, rfl, rfl, rfl, rfl, rfl, by decide, by decide, by decide⟩

/-- C4: for every model oracle, non-empty item list and supported language,
both synthesis entry points return ok with non-empty text — every raising
step is caught and degrades to the deterministic fallback, so synthesis
never raises past its caller. -/
theorem c4_synthesis_total (ai : Option AiFn) (items : List NewsItem)
    (lang query : String) (fi fc mi ei ii ci ei2 : Nat)
    (hne : items ≠ [])
    (hlang : lang ∈ (["hindi", "english", "hinglish"] : List String)) :
    (∃ s, summarize_news ai items lang query fi fc mi ei = .ok s ∧ s ≠ "")
      ∧ (∃ t, create_news_digest ai items lang ii ci ei2 = .ok t ∧ t ≠ "") := by
  constructor
  · obtain ⟨s, hs, hsne⟩ := summarize_try_ok ai items lang query fi fc mi ei
    exact ⟨s, by simp [summarize_news, hne, hs], hsne⟩
  · obtain ⟨t, ht, htne⟩ := digest_try_ok ai items lang ii ei2
    exact ⟨t, by simp [create_news_digest, hne, ht], htne⟩

/-- C4, witness at a concrete item and language. -/
theorem c4_synthesis_total_witness :
    ([sample_item] ≠ ([] : List NewsItem))
      ∧ ("english" ∈ (["hindi", "english", "hinglish"] : List String))
      ∧ ((∃ s, summarize_news none [sample_item] "english" "" 0 0 0 0
            = .ok s ∧ s ≠ "")
        ∧ (∃ t, create_news_digest none [sample_item] "english" 0 0 0
            = .ok t ∧ t ≠ "")) :=
  ⟨by simp, by decide,
   c4_synthesis_total none [sample_item] "english" "" 0 0 0 0 0 0 0
     (by simp) (by decide)⟩

set_option maxRecDepth 4000 in
/-- C5: `create_news_digest` carries no `max_length` parameter and performs
no truncation: at a 200-character title the digest it returns is itself
longer than the 200-character budget the bot's call site requests (the call
`create_news_digest(..., max_length=200)` at bot.py:496 raises `TypeError`
against this signature). -/
theorem c5_no_length_budget :
    c5_digest.isOk = true ∧ 200 < (c5_digest.toOption.getD "").length := by
  exact ⟨rfl, by decide⟩

/-- C9: the topic-label lookup is pure — two calls at the same arguments are
identical — the emoji is a projection of the fixed `topic_map` entry for the
topic, and it always comes from the nine entries of the table. -/
theorem c9_topic_info_pure (topic lang : String) :
    get_topic_info topic lang = get_topic_info topic lang
      ∧ (get_topic_info topic lang).1 = (topic_entry topic).emoji
      ∧ (get_topic_info topic lang).1
          ∈ (["🏛️", "💻", "⚽", "💰", "🎬", "🏥", "🌍", "🏢", "📰"] : List String) := by
  refine ⟨rfl, rfl, ?_⟩
  show (topic_entry topic).emoji ∈ _
  unfold topic_entry
  split_ifs <;> decide

/-- Unknown languages pick the English intro list. -/
theorem intros_unknown (lang : String) (h1 : lang ≠ "hindi")
    (h3 : lang ≠ "hinglish") :
    casual_intros lang = casual_intros "english" := by
  simp only [casual_intros]
  rw [if_neg h1, if_neg h3, if_neg (by decide : ¬("english" : String) = "hindi"),
    if_neg (by decide : ¬("english" : String) = "hinglish")]

/-- Unknown languages pick the English connector list. -/
theorem connectors_unknown (lang : String) (h1 : lang ≠ "hindi")
    (h3 : lang ≠ "hinglish") :
    casual_connectors lang = casual_connectors "english" := by
  simp only [casual_connectors]
  rw [if_neg h1, if_neg h3, if_neg (by decide : ¬("english" : String) = "hindi"),
    if_neg (by decide : ¬("english" : String) = "hinglish")]

/-- Unknown languages pick the English endings. -/
theorem ending_unknown (lang : String) (h1 : lang ≠ "hindi")
    (h3 : lang ≠ "hinglish") (i : Nat) :
    get_casual_ending lang i = get_casual_ending "english" i := by
  simp only [get_casual_ending]
  rw [if_neg h1, if_neg h3, if_neg (by decide : ¬("english" : String) = "hindi"),
    if_neg (by decide : ¬("english" : String) = "hinglish")]

/-- Unknown languages pick the English no-news message. -/
theorem no_news_unknown (lang : String) (h1 : lang ≠ "hindi")
    (h3 : lang ≠ "hinglish") :
    get_no_news_message lang = get_no_news_message "english" := by
  simp only [get_no_news_message]
  rw [if_neg h1, if_neg h3, if_neg (by decide : ¬("english" : String) = "hindi"),
    if_neg (by decide : ¬("english" : String) = "hinglish")]

/-- Languages that are not a key of the topic entry (not even the `emoji`
key) pick the English topic names. -/
theorem topic_info_unknown (topic lang : String) (h0 : lang ≠ "emoji")
    (h1 : lang ≠ "hindi") (h2 : lang ≠ "english") (h3 : lang ≠ "hinglish") :
    get_topic_info topic lang = get_topic_info topic "english" := by
  simp only [get_topic_info, entry_name]
  rw [if_neg h0, if_neg h1, if_neg h2, if_neg h3,
    if_neg (by decide : ¬("english" : String) = "emoji"),
    if_neg (by decide : ¬("english" : String) = "hindi")]
  simp

/-- Unknown languages wrap casually exactly as English does. -/
theorem make_casual_unknown (summary query : String) (lang : String)
    (h1 : lang ≠ "hindi") (h3 : lang ≠ "hinglish") (ii ei : Nat) :
    make_casual summary lang query ii ei
      = make_casual summary "english" query ii ei := by
  simp only [make_casual]
  rw [intros_unknown lang h1 h3, ending_unknown lang h1 h3, if_neg h1, if_neg h3,
    if_neg (by decide : ¬("english" : String) = "hindi"),
    if_neg (by decide : ¬("english" : String) = "hinglish")]

/-- Unknown languages build the fallback summary exactly as English does. -/
theorem fallback_unknown (items : List NewsItem) (lang : String)
    (h1 : lang ≠ "hindi") (h3 : lang ≠ "hinglish") (ii ci : Nat) :
    generate_fallback_summary items lang ii ci
      = generate_fallback_summary items "english" ii ci := by
  simp only [generate_fallback_summary]
  rw [intros_unknown lang h1 h3, connectors_unknown lang h1 h3]

/-- Unknown languages other than `emoji` summarize a topic group exactly as
English does. -/
theorem stg_unknown (ai : Option AiFn) (items : List NewsItem)
    (topic lang : String) (h0 : lang ≠ "emoji") (h1 : lang ≠ "hindi")
    (h2 : lang ≠ "english") (h3 : lang ≠ "hinglish") :
    summarize_topic_group ai items lang topic
      = summarize_topic_group ai items "english" topic := by
  cases items with
  | nil => rfl
  | cons a as =>
    simp only [summarize_topic_group]
    rw [topic_info_unknown topic lang h0 h1 h2 h3]

/-- Unknown languages summarize exactly as English does. -/
theorem summarize_unknown (ai : Option AiFn) (items : List NewsItem)
    (query : String) (lang : String) (h1 : lang ≠ "hindi")
    (h2 : lang ≠ "english") (h3 : lang ≠ "hinglish") (fi fc mi ei : Nat) :
    summarize_news ai items lang query fi fc mi ei
      = summarize_news ai items "english" query fi fc mi ei := by
  by_cases hi : items = []
  · simp [summarize_news, hi, no_news_unknown lang h1 h3]
  · cases ai with
    | none =>
      simp only [summarize_news, if_neg hi, summarize_try]
      rw [fallback_unknown items lang h1 h3, make_casual_unknown _ query lang h1 h3]
    | some f =>
      simp only [summarize_news, if_neg hi, summarize_try, generate_ai_summary]
      rw [make_casual_unknown _ query lang h1 h3]

/-- Unknown languages other than `emoji` build the digest exactly as English
does. -/
theorem digest_unknown (ai : Option AiFn) (items : List NewsItem)
    (lang : String) (h0 : lang ≠ "emoji") (h1 : lang ≠ "hindi")
    (h2 : lang ≠ "english") (h3 : lang ≠ "hinglish") (ii ci ei : Nat) :
    create_news_digest ai items lang ii ci ei
      = create_news_digest ai items "english" ii ci ei := by
  by_cases hi : items = []
  · simp [create_news_digest, hi, no_news_unknown lang h1 h3]
  · have hfun :
      (fun g : String × List NewsItem =>
        if g.2 ≠ [] then
          let s := summarize_topic_group ai g.2 lang g.1
          if s ≠ "" then some s else none
        else none)
      = (fun g : String × List NewsItem =>
        if g.2 ≠ [] then
          let s := summarize_topic_group ai g.2 "english" g.1
          if s ≠ "" then some s else none
        else none) := by
      funext g
      rw [stg_unknown ai g.2 g.1 lang h0 h1 h2 h3]
    simp only [create_news_digest, if_neg hi, digest_try]
    rw [hfun, intros_unknown lang h1 h3, ending_unknown lang h1 h3]

/-- C10, counterexample: the language string `emoji` lies outside the three
supported languages, yet the topic-name lookup does not fall back to English
for it — `info.get(language, info['english'])` finds the `emoji` key of the
`topic_map` entry and returns the emoji as the localized name, and the digest
rendered with it differs from the English one. -/
theorem c10_counterexample :
    "emoji" ∉ (["hindi", "english", "hinglish"] : List String)
      ∧ get_topic_info "sports" "emoji" = ("⚽", "⚽")
      ∧ get_topic_info "sports" "emoji" ≠ get_topic_info "sports" "english"
      ∧ ((create_news_digest none [sample_item] "emoji" 0 0 0).toOption.getD "")
          ≠ ((create_news_digest none [sample_item] "english" 0 0 0).toOption.getD "") := by
  exact ⟨by decide, rfl, by decide, by decide⟩

/-- C10, amended: every language string outside hindi, english, hinglish and
the stray dict key `emoji` silently falls back to the English entries in
every localization lookup of the synthesizer, and both synthesis entry points
behave exactly as with English; the string `emoji` is the one exception,
where the topic-name lookup yields the topic's emoji instead of its English
name. -/
theorem c10_unknown_language_english_fallback :
    ∀ (lang : String),
      lang ∉ (["hindi", "english", "hinglish", "emoji"] : List String) →
    ∀ (ai : Option AiFn) (items : List NewsItem) (topic query : String)
      (fi fc mi ei ii ci ei2 i : Nat),
      get_no_news_message lang = get_no_news_message "english"
        ∧ get_casual_ending lang i = get_casual_ending "english" i
        ∧ get_topic_info topic lang = get_topic_info topic "english"
        ∧ summarize_news ai items lang query fi fc mi ei
            = summarize_news ai items "english" query fi fc mi ei
        ∧ create_news_digest ai items lang ii ci ei2
            = create_news_digest ai items "english" ii ci ei2 := by
  intro lang h ai items topic query fi fc mi ei ii ci ei2 i
  simp only [List.mem_cons, List.mem_singleton] at h
  push_neg at h
  obtain ⟨h1, h2, h3, h0, -⟩ := h
  exact ⟨no_news_unknown lang h1 h3, ending_unknown lang h1 h3 i,
    topic_info_unknown topic lang h0 h1 h2 h3,
    summarize_unknown ai items query lang h1 h2 h3 fi fc mi ei,
    digest_unknown ai items lang h0 h1 h2 h3 ii ci ei2⟩

/-- C10, witness at the unknown language `french`. -/
theorem c10_unknown_language_witness :
    ("french" ∉ (["hindi", "english", "hinglish", "emoji"] : List String))
      ∧ (get_no_news_message "french" = get_no_news_message "english"
        ∧ get_casual_ending "french" 0 = get_casual_ending "english" 0
        ∧ get_topic_info "sports" "french" = get_topic_info "sports" "english"
        ∧ summarize_news none [] "french" "q" 0 0 0 0
            = summarize_news none [] "english" "q" 0 0 0 0
        ∧ create_news_digest none [] "french" 0 0 0
            = create_news_digest none [] "english" 0 0 0) :=
  ⟨by decide,
   c10_unknown_language_english_fallback "french" (by decide)
     none [] "sports" "q" 0 0 0 0 0 0 0 0⟩

end Samaa
